import Mathlib

/-!
Verification development for the workstation-setup repository.

The Python sources are shallowly embedded: every effectful task is
translated into a pure Lean function over an explicit model of its
environment (results of external commands, the state of the filesystem,
the attached input stream), and its console side effects are recorded as
an explicit event trace.
-/

set_option maxRecDepth 2000

/-! ## Orchestrator (src/main.py, `main`)

A step's action is observed by the orchestrator only through how it
terminates: normal return, a raised `SystemExit` (from `error_exit`),
or any other raised `Exception`.  `runStepsLoop` mirrors the
`for step_name, step_func in steps` loop of `main`, recording a `ran`
event for each executed action, the per-step warning emitted by the
corresponding `except` branch, and the accumulated `failed_steps` list.
-/

inductive StepOutcome
  | ok
  | sysExit
  | exc
  deriving DecidableEq

inductive RunEvent
  | ran (nm : String)
  | warnCritical (nm : String)
  | warnError (nm : String)
  | warnSummary (msg : String)
  | successAll
  deriving DecidableEq

/-- The `for step_name, step_func in steps` loop of `main` with its
`try` / `except SystemExit` / `except Exception` structure: returns the
event trace and the `failed_steps` list. -/
def runStepsLoop : List (String × StepOutcome) → List RunEvent × List String
  | [] => ([], [])
  | (nm, outc) :: rest =>
    let r := runStepsLoop rest
    match outc with
    | .ok => (.ran nm :: r.1, r.2)
    | .sysExit => (.ran nm :: .warnCritical nm :: r.1, nm :: r.2)
    | .exc => (.ran nm :: .warnError nm :: r.1, nm :: r.2)

/-- The whole of `main`: run the loop, then emit either the consolidated
failure warning (joining the failed step names with a comma) or the
success message.  The Python process then falls off the end of `main`,
so the exit status is the default `0`; the third component records it. -/
def mainRun (steps : List (String × StepOutcome)) :
    List RunEvent × List String × Nat :=
  let r := runStepsLoop steps
  if r.2.isEmpty then
    (r.1 ++ [.successAll], r.2, 0)
  else
    (r.1 ++ [.warnSummary (String.intercalate ", " r.2)], r.2, 0)

/-- Name carried by a `ran` event, if any. -/
def ranName : RunEvent → Option String
  | .ran nm => some nm
  | _ => none

/-- Name carried by a per-step failure warning, if any. -/
def warnName : RunEvent → Option String
  | .warnCritical nm => some nm
  | .warnError nm => some nm
  | _ => none

/-! ## Configuration loaders (src/utils.py) -/

/-- A parsed YAML document. -/
inductive Yaml
  | null
  | str (s : String)
  | list (l : List Yaml)
  | map (m : List (String × Yaml))

/-- What a loader finds at its path: no file, a file that fails to
parse, or a parsed document. -/
inductive LoadInput
  | missing
  | parseFail
  | parsed (d : Yaml)

/-- Result of a loader: `fatal` models `error_exit` (print and raise
`SystemExit`), `ok` a normal return. -/
inductive LoadResult (α : Type)
  | fatal
  | ok (a : α)

/-- `load_applications_config`: missing file or parse failure is fatal;
otherwise the parsed document is returned unchanged (no top-level key
is consumed in this loader; the caller extracts `casks`/`formulae`). -/
def load_applications_config : LoadInput → LoadResult Yaml
  | .missing => .fatal
  | .parseFail => .fatal
  | .parsed d => .ok d

/-- `config.get(key, [])` on a parsed document: only a mapping document
supports `.get` (any other document raises `AttributeError`, which the
loader's `except Exception` turns into `error_exit`). -/
def yamlGetD (d : Yaml) (key : String) : LoadResult Yaml :=
  match d with
  | .map m =>
    match m.lookup key with
    | some v => .ok v
    | none => .ok (.list [])
  | _ => .fatal

/-- `load_folders_config`: missing file or parse failure is fatal;
otherwise `config.get('folders', [])`. -/
def load_folders_config : LoadInput → LoadResult Yaml
  | .missing => .fatal
  | .parseFail => .fatal
  | .parsed d => yamlGetD d "folders"

/-- `load_interactive_apps_config`: missing file or parse failure is
fatal; otherwise `config.get('interactive_apps', [])`. -/
def load_interactive_apps_config : LoadInput → LoadResult Yaml
  | .missing => .fatal
  | .parseFail => .fatal
  | .parsed d => yamlGetD d "interactive_apps"

/-! ## Claims C1 and C2 -/

/-- Claim C1: for every sequence of step descriptors given to the
orchestrator, every action is executed exactly once, in registration
order (the `ran` events are exactly the step names in order); a step
terminating with `SystemExit` or any other error does not prevent later
steps from running; each such failure emits a warning naming the step;
and the failure list collects exactly the failing steps' names in
execution order, which the warnings match one for one. -/
theorem main_isolates_and_records_failures
    (steps : List (String × StepOutcome)) :
    (runStepsLoop steps).1.filterMap ranName = steps.map Prod.fst ∧
    (runStepsLoop steps).2 =
      (steps.filter (fun s => decide (s.2 ≠ StepOutcome.ok))).map Prod.fst ∧
    (runStepsLoop steps).1.filterMap warnName = (runStepsLoop steps).2 := by
  induction steps with
  | nil => simp [runStepsLoop]
  | cons s rest ih =>
    obtain ⟨nm, outc⟩ := s
    obtain ⟨ih1, ih2, ih3⟩ := ih
    cases outc <;>
      simp [runStepsLoop, ranName, warnName, ih1, ih2, ih3]

/-- No summary event is produced inside the step loop itself. -/
theorem runStepsLoop_no_summary (steps : List (String × StepOutcome))
    (msg : String) :
    RunEvent.warnSummary msg ∉ (runStepsLoop steps).1 ∧
    RunEvent.successAll ∉ (runStepsLoop steps).1 := by
  induction steps with
  | nil => simp [runStepsLoop]
  | cons s rest ih =>
    obtain ⟨nm, outc⟩ := s
    cases outc <;> simp [runStepsLoop, ih.1, ih.2]

/-- Claim C2: after all steps have run, the orchestrator emits the
consolidated warning listing every failed step name exactly when the
failure list is non-empty, emits the success message exactly when it is
empty, and the run always ends with the default success exit status 0
regardless of how many steps failed. -/
theorem main_summary_and_exit_status (steps : List (String × StepOutcome)) :
    (mainRun steps).2.2 = 0 ∧
    (RunEvent.warnSummary (String.intercalate ", " (mainRun steps).2.1) ∈
        (mainRun steps).1 ↔ (mainRun steps).2.1 ≠ []) ∧
    (RunEvent.successAll ∈ (mainRun steps).1 ↔ (mainRun steps).2.1 = []) := by
  by_cases h : (runStepsLoop steps).2.isEmpty
  · have h' : (runStepsLoop steps).2 = [] := by
      simpa [List.isEmpty_iff] using h
    refine ⟨by simp [mainRun, h], ?_, ?_⟩
    · simp [mainRun, h, h', (runStepsLoop_no_summary steps
        (String.intercalate ", " ([] : List String))).1]
    · simp [mainRun, h, h']
  · have h' : (runStepsLoop steps).2 ≠ [] := by
      simpa [List.isEmpty_iff] using h
    refine ⟨by simp [mainRun, h], ?_, ?_⟩
    · simp [mainRun, h, h']
    · simp [mainRun, h, h', (runStepsLoop_no_summary steps "").2]

/-! ## Claim C3 (config loaders) -/

/-- Claim C3, counterexample: the applications loader does not return an
empty collection when the parsed file lacks its expected keys — it
returns the parsed mapping unchanged.  Here the file parses to a
mapping with only the key `other` (no `casks`/`formulae`), and the
loader returns that non-empty mapping. -/
theorem load_applications_config_keeps_full_mapping :
    load_applications_config (.parsed (.map [("other", .null)])) =
      .ok (.map [("other", .null)]) ∧
    Yaml.map [("other", Yaml.null)] ≠ Yaml.map [] ∧
    Yaml.map [("other", Yaml.null)] ≠ Yaml.list [] :=
  ⟨rfl, by simp, by simp⟩

/-- Claim C3 as amended: all three loaders halt fatally when the file is
missing or fails to parse; the folders and interactive-apps loaders
return an empty list when the file parses to a mapping lacking their
expected top-level key; the applications loader instead returns the
parsed document unchanged (key extraction with an empty default is done
by its caller). -/
theorem config_loaders_fatal_and_default_empty
    (m : List (String × Yaml)) (d : Yaml)
    (hf : m.lookup "folders" = none)
    (hi : m.lookup "interactive_apps" = none) :
    load_applications_config .missing = .fatal ∧
    load_applications_config .parseFail = .fatal ∧
    load_folders_config .missing = .fatal ∧
    load_folders_config .parseFail = .fatal ∧
    load_interactive_apps_config .missing = .fatal ∧
    load_interactive_apps_config .parseFail = .fatal ∧
    load_folders_config (.parsed (.map m)) = .ok (.list []) ∧
    load_interactive_apps_config (.parsed (.map m)) = .ok (.list []) ∧
    load_applications_config (.parsed d) = .ok d := by
  refine ⟨rfl, rfl, rfl, rfl, rfl, rfl, ?_, ?_, rfl⟩
  · simp [load_folders_config, yamlGetD, hf]
  · simp [load_interactive_apps_config, yamlGetD, hi]

/-- Witness for the amended C3 theorem at a concrete mapping lacking
both keys. -/
theorem config_loaders_fatal_and_default_empty_witness :
    ([(("casks" : String), Yaml.null)].lookup "folders" = none) ∧
    ([(("casks" : String), Yaml.null)].lookup "interactive_apps" = none) ∧
    load_folders_config (.parsed (.map [("casks", .null)])) = .ok (.list []) ∧
    load_interactive_apps_config (.parsed (.map [("casks", .null)])) =
      .ok (.list []) :=
  ⟨rfl, rfl,
    (config_loaders_fatal_and_default_empty [("casks", .null)] .null
      rfl rfl).2.2.2.2.2.2.1,
    (config_loaders_fatal_and_default_empty [("casks", .null)] .null
      rfl rfl).2.2.2.2.2.2.2.1⟩

/-! ## `run_command` (src/utils.py) and claim C10 -/

/-- Outcome of `run_command` as the caller sees it: a returned
completed process with its return code, or a raised `SystemExit` from
`error_exit`.  `subprocess.run(check=check)` raises
`CalledProcessError` exactly when `check` is set and the return code is
non-zero; the handler then calls `error_exit`. -/
inductive RunOutcome
  | ret (rc : Int)
  | sysExit
  deriving DecidableEq

/-- `run_command` on a command that completes with return code `rc`. -/
def run_command (check : Bool) (rc : Int) : RunOutcome :=
  if check ∧ rc ≠ 0 then .sysExit else .ret rc

inductive OVFetchEvent
  | fetchedOk
  | warnFetchFailed
  deriving DecidableEq

/-- The credential-fetch step of `ensure_openvpn_setup`: the
`op item get` call uses `check=True`; a raised `SystemExit` propagates
out of the surrounding `try` (its handlers catch only `Exception`),
modelled as `none`; on a normal return, the code branches on
`result.returncode == 0`, warning on the else branch. -/
def openvpnFetchStep (rc : Int) : Option (List OVFetchEvent) :=
  match run_command true rc with
  | .sysExit => none
  | .ret rc' => some (if rc' = 0 then [.fetchedOk] else [.warnFetchFailed])

/-- Claim C10: `run_command` with `check=True` never returns a result
with a non-zero return code — whenever the OpenVPN fetch step completes
normally, the command's return code was 0, `run_command` returned a
completed process with return code 0, and the else branch handling a
non-zero return code after the fetch is unreachable (the emitted event
is always `fetchedOk`, never `warnFetchFailed`). -/
theorem run_command_check_true_no_nonzero_return (rc : Int)
    (evs : List OVFetchEvent) (h : openvpnFetchStep rc = some evs) :
    rc = 0 ∧ run_command true rc = .ret 0 ∧ evs = [.fetchedOk] ∧
    OVFetchEvent.warnFetchFailed ∉ evs := by
  by_cases h0 : rc = 0
  · subst h0
    simp [openvpnFetchStep, run_command] at h
    simp [run_command, ← h]
  · simp [openvpnFetchStep, run_command, h0] at h

/-- Witness for C10 at return code 0. -/
theorem run_command_check_true_no_nonzero_return_witness :
    openvpnFetchStep 0 = some [OVFetchEvent.fetchedOk] ∧
    ((0 : Int) = 0 ∧ run_command true 0 = .ret 0 ∧
      [OVFetchEvent.fetchedOk] = [OVFetchEvent.fetchedOk] ∧
      OVFetchEvent.warnFetchFailed ∉ [OVFetchEvent.fetchedOk]) :=
  ⟨by decide, run_command_check_true_no_nonzero_return 0 _ (by decide)⟩

/-! ## Git configuration task (src/tasks/git.py) and claim C7 -/

/-- The delimiting comment written before appended content. -/
def workstationDelim : String := "\n# Added by workstation-setup\n"

/-- The `.gitconfig` installation step of `ensure_git_config`, lines
64-86: given the source file's content and the destination file's
state (`none` when absent), produce the destination's content
afterwards.  Absent destination: the source content is written
verbatim.  Present destination: the file is opened in append mode and
the delimiting comment plus the source content are written after the
existing content. -/
def installGitconfig (srcContent : String) (dest : Option String) : String :=
  match dest with
  | none => srcContent
  | some existing => existing ++ workstationDelim ++ srcContent

/-- Claim C7: if the destination `.gitconfig` is absent the source
content is copied verbatim; if present, a delimiting comment followed
by the source content is appended after the existing content (never
overwriting it — the old content stays as a prefix); and a re-run with
the destination present appends the block again, so the append path is
not idempotent. -/
theorem gitconfig_copy_append_not_idempotent (src existing : String) :
    installGitconfig src none = src ∧
    installGitconfig src (some existing) =
      existing ++ workstationDelim ++ src ∧
    (∃ tail, installGitconfig src (some existing) = existing ++ tail) ∧
    installGitconfig src (some (installGitconfig src (some existing))) ≠
      installGitconfig src (some existing) := by
  refine ⟨rfl, rfl, ⟨workstationDelim ++ src, ?_⟩, ?_⟩
  · simp [installGitconfig, String.append_assoc]
  · intro h
    have hlen := congrArg String.length h
    have hd : workstationDelim.length = 30 := rfl
    simp only [installGitconfig, String.length_append, hd] at hlen
    omega

/-! ## Credential-field extraction (src/tasks/openvpn.py, src/tasks/aws.py)
and claim C4 -/

/-- One field of a fetched 1Password item, as the JSON presents it:
`field.get('id', '')` etc. default to the empty string when a key is
absent, which the `Option.getD ""` below mirrors. -/
structure OPField where
  id : Option String
  label : Option String
  value : Option String
  deriving DecidableEq

/-- Python truthiness of an optional string: `not x` is true for `None`
and for the empty string. -/
def pyFalsy : Option String → Bool
  | none => true
  | some s => s == ""

/-- Python's `str.lower()`, character by character. -/
def pyLower (s : String) : String := ⟨s.data.map Char.toLower⟩

/-- Python's `str.strip()`: whitespace removed from both ends. -/
def pyStrip (s : String) : String :=
  ⟨((s.data.dropWhile Char.isWhitespace).reverse.dropWhile
      Char.isWhitespace).reverse⟩

/-- Python's `str.endswith(suffix)`. -/
def strEndsWith (s suffix : String) : Bool := suffix.data.isSuffixOf s.data

/-- Python's `s[:-n]` for `n` trailing characters. -/
def strDropRight (s : String) (n : Nat) : String :=
  ⟨s.data.take (s.data.length - n)⟩

structure OVCreds where
  username : Option String
  password : Option String
  profileUrl : Option String
  deriving DecidableEq

/-- The field-extraction loop of `ensure_openvpn_setup`: `username` and
`password` are matched by field id, the profile URL by field label, the
last matching field winning. -/
def extractOpenvpnFields (fields : List OPField) : OVCreds :=
  fields.foldl (fun acc f =>
    let fid := f.id.getD ""
    let flabel := f.label.getD ""
    let fval := f.value.getD ""
    if fid = "username" then { acc with username := some fval }
    else if fid = "password" then { acc with password := some fval }
    else if flabel = "profile-download" then { acc with profileUrl := some fval }
    else acc) ⟨none, none, none⟩

inductive OVEvent
  | warnMissingCreds
  | warnMissingUrl
  | extracted
  | cmdDownload (user pass url : String)
  | warnDownloadFailed
  | warnEmptyProfile
  | promptOpen
  | skippedOpen
  | cmdOpenApp
  | warnOpenFailed
  | opened
  | confirmWait
  | completed
  deriving DecidableEq

/-- Environment of `ensure_openvpn_setup` after the credential fetch:
the `wget` return code, whether the downloaded profile exists and is
non-empty, the operator's response at the open prompt, and the `open`
return code. -/
structure OVEnv where
  wgetRc : Int
  profileNonempty : Bool
  response : String
  openRc : Int

/-- `ensure_openvpn_setup` from the field-extraction point on (lines
82-189): extract fields, stop with a warning when username/password or
the profile URL is missing, otherwise download with `wget`, check the
file, prompt, and open OpenVPN Connect. -/
def openvpnAfterFetch (fields : List OPField) (env : OVEnv) : List OVEvent :=
  let c := extractOpenvpnFields fields
  if pyFalsy c.username || pyFalsy c.password then
    [.warnMissingCreds]
  else if pyFalsy c.profileUrl then
    [.warnMissingUrl]
  else
    .extracted ::
    .cmdDownload (c.username.getD "") (c.password.getD "") (c.profileUrl.getD "") ::
    (if env.wgetRc ≠ 0 then [.warnDownloadFailed]
     else if !env.profileNonempty then [.warnEmptyProfile]
     else .promptOpen ::
       (if pyLower (pyStrip env.response) = "s" then [.skippedOpen]
        else .cmdOpenApp ::
          (if env.openRc ≠ 0 then [.warnOpenFailed]
           else [.opened, .confirmWait, .completed])))

/-- A downstream command of the OpenVPN task that mutates external
state: the authenticated profile download and the application launch. -/
def ovMutating : OVEvent → Bool
  | .cmdDownload _ _ _ => true
  | .cmdOpenApp => true
  | _ => false

structure AwsCreds where
  accessKey : Option String
  secretKey : Option String
  eks : Option String
  deriving DecidableEq

/-- The field-extraction loop of `ensure_aws_cli_setup`: all three
fields are matched by lowercased label. -/
def extractAwsFields (fields : List OPField) : AwsCreds :=
  fields.foldl (fun acc f =>
    let flabel := pyLower (f.label.getD "")
    let fval := f.value.getD ""
    if flabel = "access key" then { acc with accessKey := some fval }
    else if flabel = "access secret" then { acc with secretKey := some fval }
    else if flabel = "eks" then { acc with eks := some fval }
    else acc) ⟨none, none, none⟩

inductive AwsEvent
  | warnMissingKeys
  | extracted
  | promptRegion
  | cmdConfigureSet (key val : String)
  | warnConfigureFailed (key : String)
  | configured
  | cmdVerify
  | verifiedOk
  | warnVerifyFailed
  | warnKubectlMissing
  | cmdUpdateKubeconfig (cluster region : String)
  | kubeconfigOk
  | warnKubeconfigFailed
  | done
  deriving DecidableEq

/-- Environment of `ensure_aws_cli_setup` after the credential fetch:
the region typed at the prompt, the return codes of the four
`aws configure set` calls, of `aws sts get-caller-identity`, whether
kubectl is installed, and the `aws eks update-kubeconfig` return
code. -/
structure AwsEnv where
  regionInput : String
  setKeyRc : Int
  setSecretRc : Int
  setRegionRc : Int
  setOutputRc : Int
  verifyRc : Int
  kubectlInstalled : Bool
  updateKubeRc : Int

/-- `ensure_aws_cli_setup` from the field-extraction point on (lines
90-222): extract fields, stop with a warning when the access key or
secret is missing, otherwise prompt for a region (defaulting to
eu-west-1), run the four `aws configure set` sub-commands (each failure
a warn-and-return), verify, and configure kubectl when an EKS cluster
name was present. -/
def awsAfterFetch (fields : List OPField) (env : AwsEnv) : List AwsEvent :=
  let c := extractAwsFields fields
  if pyFalsy c.accessKey || pyFalsy c.secretKey then
    [.warnMissingKeys]
  else
    let region :=
      if pyStrip env.regionInput = "" then "eu-west-1" else pyStrip env.regionInput
    let kube : List AwsEvent :=
      if pyFalsy c.eks then []
      else if !env.kubectlInstalled then [.warnKubectlMissing]
      else .cmdUpdateKubeconfig (c.eks.getD "") region ::
        (if env.updateKubeRc = 0 then [.kubeconfigOk] else [.warnKubeconfigFailed])
    .extracted :: .promptRegion ::
    .cmdConfigureSet "aws_access_key_id" (c.accessKey.getD "") ::
    (if env.setKeyRc ≠ 0 then [.warnConfigureFailed "aws_access_key_id"]
     else .cmdConfigureSet "aws_secret_access_key" (c.secretKey.getD "") ::
       (if env.setSecretRc ≠ 0 then [.warnConfigureFailed "aws_secret_access_key"]
        else .cmdConfigureSet "region" region ::
          (if env.setRegionRc ≠ 0 then [.warnConfigureFailed "region"]
           else .cmdConfigureSet "output" "json" ::
             (if env.setOutputRc ≠ 0 then [.warnConfigureFailed "output"]
              else .configured :: .cmdVerify ::
                ((if env.verifyRc = 0 then [.verifiedOk] else [.warnVerifyFailed]) ++
                  kube ++ [.done])))))

/-- A downstream command of the AWS task that mutates external state:
the `aws configure set` sub-commands and `aws eks update-kubeconfig`. -/
def awsMutating : AwsEvent → Bool
  | .cmdConfigureSet _ _ => true
  | .cmdUpdateKubeconfig _ _ => true
  | _ => false

/-- Claim C4: when the fetched field set lacks a required field (no
username/password for the VPN task, no access key/secret for the
cloud-CLI task), the consuming task warns and returns before invoking
any downstream mutating command: the whole trace is the single warning,
so no profile download and no `aws configure set`/kubeconfig
sub-command is run. -/
theorem missing_credential_fields_stop_tasks
    (ovFields awFields : List OPField) (ovEnv : OVEnv) (awEnv : AwsEnv)
    (hv : (pyFalsy (extractOpenvpnFields ovFields).username ||
           pyFalsy (extractOpenvpnFields ovFields).password) = true)
    (ha : (pyFalsy (extractAwsFields awFields).accessKey ||
           pyFalsy (extractAwsFields awFields).secretKey) = true) :
    openvpnAfterFetch ovFields ovEnv = [.warnMissingCreds] ∧
    (openvpnAfterFetch ovFields ovEnv).all (fun e => !ovMutating e) = true ∧
    awsAfterFetch awFields awEnv = [.warnMissingKeys] ∧
    (awsAfterFetch awFields awEnv).all (fun e => !awsMutating e) = true := by
  refine ⟨?_, ?_, ?_, ?_⟩ <;>
    simp [openvpnAfterFetch, awsAfterFetch, hv, ha, ovMutating, awsMutating]

/-- Witness for C4: an item with no fields at all. -/
theorem missing_credential_fields_stop_tasks_witness :
    (pyFalsy (extractOpenvpnFields []).username ||
      pyFalsy (extractOpenvpnFields []).password) = true ∧
    (pyFalsy (extractAwsFields []).accessKey ||
      pyFalsy (extractAwsFields []).secretKey) = true ∧
    (openvpnAfterFetch [] ⟨0, true, "", 0⟩ = [.warnMissingCreds] ∧
      (openvpnAfterFetch [] ⟨0, true, "", 0⟩).all (fun e => !ovMutating e) = true ∧
      awsAfterFetch [] ⟨"", 0, 0, 0, 0, 0, true, 0⟩ = [.warnMissingKeys] ∧
      (awsAfterFetch [] ⟨"", 0, 0, 0, 0, 0, true, 0⟩).all
        (fun e => !awsMutating e) = true) :=
  ⟨by decide, by decide,
    missing_credential_fields_stop_tasks [] [] ⟨0, true, "", 0⟩
      ⟨"", 0, 0, 0, 0, 0, true, 0⟩ (by decide) (by decide)⟩

/-! ## Repository cloning (src/tasks/development.py) and claim C5 -/

/-- One repository entry from the `glab repo list` JSON. -/
structure Repo where
  name : Option String
  ssh_url_to_repo : Option String
  last_activity_at : Option String
  deriving DecidableEq

/-- The timestamp normalization at lines 177-178: a trailing `Z` is
replaced by the `+00:00` UTC offset before `datetime.fromisoformat`. -/
def normalizeTimestamp (s : String) : String :=
  if strEndsWith s "Z" then strDropRight s 1 ++ "+00:00" else s

inductive RepoAction
  | warnParse (nm : String)
  | inactive (nm : String)
  | skipExists (nm : String)
  | cloned (nm : String)
  | cloneFailed (nm : String)
  deriving DecidableEq

/-- Environment of the cloning loop: the ISO-8601 parser (an external
library call; `none` models a raised `ValueError`), the parsed cutoff
`now - 2*365 days`, the pre-existing target directories under
`~/Development/Projects`, and the `git clone` return code per URL. -/
structure CloneEnv where
  parseIso : String → Option Int
  cutoff : Int
  dirExists : String → Bool
  cloneRc : String → Int

/-- Result of the cloning loop: the per-entry log actions, the
`git clone` commands issued (url, target name), and the three
counters. -/
structure CloneOutcome where
  actions : List RepoAction
  cmds : List (String × String)
  cloned : Nat
  skipped : Nat
  inactive : Nat
  deriving DecidableEq

/-- The `for repo in repos` loop at lines 167-205: entries with a
missing (or empty) name, ssh url or timestamp are silently skipped; the
timestamp is normalized and parsed, a parse failure warns and
continues; entries older than the cutoff count as inactive; in-window
entries whose target directory already exists (including one created by
an earlier successful clone this run, tracked in `created`) count as
skipped; the rest are cloned. -/
def processReposAux (env : CloneEnv) (created : List String) :
    List Repo → CloneOutcome
  | [] => ⟨[], [], 0, 0, 0⟩
  | r :: rest =>
    if pyFalsy r.name || pyFalsy r.ssh_url_to_repo ||
        pyFalsy r.last_activity_at then
      processReposAux env created rest
    else
      let nm := r.name.getD ""
      let url := r.ssh_url_to_repo.getD ""
      match env.parseIso (normalizeTimestamp (r.last_activity_at.getD "")) with
      | none =>
        let o := processReposAux env created rest
        { o with actions := .warnParse nm :: o.actions }
      | some t =>
        if t < env.cutoff then
          let o := processReposAux env created rest
          { o with actions := .inactive nm :: o.actions,
                   inactive := o.inactive + 1 }
        else if env.dirExists nm || created.contains nm then
          let o := processReposAux env created rest
          { o with actions := .skipExists nm :: o.actions,
                   skipped := o.skipped + 1 }
        else if env.cloneRc url = 0 then
          let o := processReposAux env (nm :: created) rest
          { o with actions := .cloned nm :: o.actions,
                   cmds := (url, nm) :: o.cmds,
                   cloned := o.cloned + 1 }
        else
          let o := processReposAux env created rest
          { o with actions := .cloneFailed nm :: o.actions,
                   cmds := (url, nm) :: o.cmds }

/-- The whole loop starting with no directories created this run. -/
def processRepos (env : CloneEnv) (repos : List Repo) : CloneOutcome :=
  processReposAux env [] repos

/-- Claim C5: for a complete repository entry (name, ssh url and
timestamp present and non-empty), the loop parses the timestamp after
Z-normalization; a parse failure warns and skips the entry without
aborting (the remaining entries produce exactly the same outcome);
an entry older than the cutoff is counted inactive and produces no
clone command; an in-window entry whose target directory already
exists is counted skipped and produces no clone command; and a
remaining in-window entry is cloned.  The final conjunct records the
Z-suffix normalization itself. -/
theorem clone_loop_classification (env : CloneEnv) (created : List String)
    (r : Repo) (rest : List Repo)
    (hn : pyFalsy r.name = false)
    (hu : pyFalsy r.ssh_url_to_repo = false)
    (ht : pyFalsy r.last_activity_at = false) :
    (env.parseIso (normalizeTimestamp (r.last_activity_at.getD "")) = none →
      processReposAux env created (r :: rest) =
        { processReposAux env created rest with
            actions := .warnParse (r.name.getD "") ::
              (processReposAux env created rest).actions }) ∧
    (∀ t, env.parseIso (normalizeTimestamp (r.last_activity_at.getD "")) = some t →
      t < env.cutoff →
      processReposAux env created (r :: rest) =
        { processReposAux env created rest with
            actions := .inactive (r.name.getD "") ::
              (processReposAux env created rest).actions,
            inactive := (processReposAux env created rest).inactive + 1 }) ∧
    (∀ t, env.parseIso (normalizeTimestamp (r.last_activity_at.getD "")) = some t →
      ¬t < env.cutoff →
      (env.dirExists (r.name.getD "") || created.contains (r.name.getD "")) = true →
      processReposAux env created (r :: rest) =
        { processReposAux env created rest with
            actions := .skipExists (r.name.getD "") ::
              (processReposAux env created rest).actions,
            skipped := (processReposAux env created rest).skipped + 1 }) ∧
    (∀ t, env.parseIso (normalizeTimestamp (r.last_activity_at.getD "")) = some t →
      ¬t < env.cutoff →
      (env.dirExists (r.name.getD "") || created.contains (r.name.getD "")) = false →
      env.cloneRc (r.ssh_url_to_repo.getD "") = 0 →
      processReposAux env created (r :: rest) =
        { processReposAux env ((r.name.getD "") :: created) rest with
            actions := .cloned (r.name.getD "") ::
              (processReposAux env ((r.name.getD "") :: created) rest).actions,
            cmds := (r.ssh_url_to_repo.getD "", r.name.getD "") ::
              (processReposAux env ((r.name.getD "") :: created) rest).cmds,
            cloned := (processReposAux env ((r.name.getD "") :: created) rest).cloned + 1 }) ∧
    (strEndsWith (r.last_activity_at.getD "") "Z" = true →
      normalizeTimestamp (r.last_activity_at.getD "") =
        strDropRight (r.last_activity_at.getD "") 1 ++ "+00:00") := by
  refine ⟨?_, ?_, ?_, ?_, ?_⟩
  · intro hp
    simp [processReposAux, hn, hu, ht, hp]
  · intro t hp hlt
    simp [processReposAux, hn, hu, ht, hp, hlt]
  · intro t hp hlt hex
    cases h1 : env.dirExists (r.name.getD "") with
    | true => simp [processReposAux, hn, hu, ht, hp, hlt, h1]
    | false =>
      have h2 : r.name.getD "" ∈ created := by simpa [h1] using hex
      simp [processReposAux, hn, hu, ht, hp, hlt, h1, h2]
  · intro t hp hlt hex hrc
    have h1 : env.dirExists (r.name.getD "") = false := by
      cases h : env.dirExists (r.name.getD "")
      · rfl
      · simp [h] at hex
    have h2 : r.name.getD "" ∉ created := by simpa [h1] using hex
    simp [processReposAux, hn, hu, ht, hp, hlt, h1, h2, hrc]
  · intro hz
    simp [normalizeTimestamp, hz]

/-- A concrete cloning environment: one parseable timestamp mapping to
100, cutoff 200, no pre-existing directories. -/
def sampleCloneEnv : CloneEnv :=
  ⟨fun s => if s = "2020-01-01T00:00:00+00:00" then some 100 else none,
   200, fun _ => false, fun _ => 1⟩

def sampleRepo : Repo :=
  ⟨some "proj", some "git@host:proj.git", some "2020-01-01T00:00:00Z"⟩

/-- Witness for C5: a complete entry whose Z-suffixed timestamp parses
to a time before the cutoff is counted inactive and not cloned. -/
theorem clone_loop_classification_witness :
    pyFalsy sampleRepo.name = false ∧
    pyFalsy sampleRepo.ssh_url_to_repo = false ∧
    pyFalsy sampleRepo.last_activity_at = false ∧
    processReposAux sampleCloneEnv [] [sampleRepo] =
      ⟨[RepoAction.inactive "proj"], [], 0, 0, 1⟩ := by
  refine ⟨by decide, by decide, by decide, ?_⟩
  have hp : sampleCloneEnv.parseIso
      (normalizeTimestamp (sampleRepo.last_activity_at.getD "")) = some 100 := by
    decide
  have h := (clone_loop_classification sampleCloneEnv [] sampleRepo []
    (by decide) (by decide) (by decide)).2.1 100 hp (by decide)
  simpa [processReposAux] using h

/-! ## Interactive application setup (src/tasks/interactive.py) and claim C8 -/

/-- One integration descriptor from `application-setup.yaml`. -/
structure AppEntry where
  name : Option String
  display_name : Option String
  bundle_id : Option String
  appType : Option String
  instructions : Option String
  deriving DecidableEq

inductive IAEvent
  | warnIncomplete
  | installCheck (bundle : String)
  | warnNotInstalled (nm : String)
  | showInstructions (nm : String)
  | promptOpen (nm : String)
  | skippedByUser (nm : String)
  | cmdOpen (nm : String)
  | warnOpenFailed (nm : String)
  | opened (nm : String)
  | confirmWait (nm : String)
  | completed (nm : String)
  deriving DecidableEq

/-- Environment of the interactive-launch loop: whether each bundle id
is installed and the `open -a` return code per display name. -/
structure IAEnv where
  installed : String → Bool
  openRc : String → Int

/-- Read one line from the operator's input stream (an `input()`
call). -/
def takeInput : List String → String × List String
  | [] => ("", [])
  | i :: rest => (i, rest)

/-- One iteration of the `for app in interactive_apps` loop (lines
35-80): an automated entry is skipped outright — before the
completeness check, the installation check, any prompt, or any launch;
then incomplete entries warn, uninstalled apps warn, the operator may
skip, and otherwise the application is opened and waited for.  Returns
the events and the rest of the input stream. -/
def iaStep (env : IAEnv) (inputs : List String) (app : AppEntry) :
    List IAEvent × List String :=
  if app.appType = some "automated" then
    ([], inputs)
  else if pyFalsy app.display_name || pyFalsy app.bundle_id then
    ([.warnIncomplete], inputs)
  else
    let nm := app.display_name.getD ""
    let bid := app.bundle_id.getD ""
    if !env.installed bid then
      ([.installCheck bid, .warnNotInstalled nm], inputs)
    else
      let (resp, rest) := takeInput inputs
      if pyLower (pyStrip resp) = "s" then
        ([.installCheck bid, .showInstructions nm, .promptOpen nm,
          .skippedByUser nm], rest)
      else if env.openRc nm ≠ 0 then
        ([.installCheck bid, .showInstructions nm, .promptOpen nm,
          .cmdOpen nm, .warnOpenFailed nm], rest)
      else
        let (_, rest') := takeInput rest
        ([.installCheck bid, .showInstructions nm, .promptOpen nm,
          .cmdOpen nm, .opened nm, .confirmWait nm, .completed nm], rest')

/-- The whole loop of `ensure_interactive_application_setup` over the
descriptor list, threading the operator's input stream. -/
def iaProcess (env : IAEnv) (inputs : List String) :
    List AppEntry → List IAEvent
  | [] => []
  | app :: rest =>
    let r := iaStep env inputs app
    r.1 ++ iaProcess env r.2 rest

/-- Claim C8: an entry with `type=automated` is processed by the
interactive-launch task with no installation check, no prompt and no
launch (its step yields no event and consumes no input), and the
overall trace is exactly the trace of the remaining entries — so a
list with one automated and one interactive entry produces only the
interactive entry's events. -/
theorem interactive_setup_skips_automated (env : IAEnv)
    (inputs : List String) (app : AppEntry) (rest : List AppEntry)
    (h : app.appType = some "automated") :
    iaStep env inputs app = ([], inputs) ∧
    iaProcess env inputs (app :: rest) = iaProcess env inputs rest := by
  constructor
  · simp [iaStep, h]
  · simp [iaProcess, iaStep, h]

/-- A concrete descriptor list: one automated entry followed by one
interactive entry that is installed and opened successfully. -/
def sampleAutomatedApp : AppEntry :=
  ⟨some "awscli", some "AWS CLI", some "com.aws.cli", some "automated", none⟩

def sampleInteractiveApp : AppEntry :=
  ⟨some "slack", some "Slack", some "com.tinyspeck.slackmacgap",
    some "interactive", some "Sign in"⟩

def sampleIAEnv : IAEnv := ⟨fun _ => true, fun _ => 0⟩

/-- Witness for C8: with one automated and one interactive entry the
trace is exactly the interactive entry's, and the automated entry
produces nothing. -/
theorem interactive_setup_skips_automated_witness :
    sampleAutomatedApp.appType = some "automated" ∧
    iaStep sampleIAEnv ["", ""] sampleAutomatedApp = ([], ["", ""]) ∧
    iaProcess sampleIAEnv ["", ""] [sampleAutomatedApp, sampleInteractiveApp] =
      iaProcess sampleIAEnv ["", ""] [sampleInteractiveApp] ∧
    iaProcess sampleIAEnv ["", ""] [sampleAutomatedApp, sampleInteractiveApp] =
      [.installCheck "com.tinyspeck.slackmacgap", .showInstructions "Slack",
        .promptOpen "Slack", .cmdOpen "Slack", .opened "Slack",
        .confirmWait "Slack", .completed "Slack"] := by
  have h := interactive_setup_skips_automated sampleIAEnv ["", ""]
    sampleAutomatedApp [sampleInteractiveApp] (by decide)
  exact ⟨by decide, h.1, h.2, by rw [h.2]; decide⟩

/-! ## 1Password sign-in (src/tasks/onepassword.py) and claim C9 -/

/-- Environment of `ensure_1password_signin`: results of the external
checks (`which op`, `op account list`, the successive `op whoami`
calls, `op signin`, `op account add`), whether stdin is a TTY, and the
address typed at the manual prompt. -/
structure OPSEnv where
  opInstalled : Bool
  accountListRcOk : Bool
  accountListNonempty : Bool
  whoami1Ok : Bool
  signinRcOk : Bool
  whoami2Ok : Bool
  isatty : Bool
  addressInput : String
  accountAddRcOk : Bool
  whoami3Ok : Bool
  deriving DecidableEq

inductive OPSEvent
  | warnNotInstalled
  | alreadySignedIn
  | confirmRead
  | cmdSignin
  | signedInViaApp
  | warnFallback
  | warnNonInteractive
  | promptAddress
  | cmdAccountAdd (addr : String)
  | signedInManual
  | softAdded
  | warnSigninFailed
  | doneMsg
  deriving DecidableEq

/-- `ensure_1password_signin` of the task module: if `op` is missing,
warn and return; if already signed in (account list non-empty and
`op whoami` succeeds), return; otherwise emit the unconditional
press-Enter confirmation (`wait_for_user_confirmation`, an `input()`
call — before any TTY check), run `op signin`, and on failure fall back:
warn, and only then check the TTY — a non-TTY stdin warns with
manual-completion instructions and returns, a TTY leads to the
sign-in-address prompt and `op account add`. -/
def ensure_1password_signin (env : OPSEnv) : List OPSEvent :=
  if !env.opInstalled then
    [.warnNotInstalled]
  else if env.accountListRcOk && env.accountListNonempty && env.whoami1Ok then
    [.alreadySignedIn]
  else
    .confirmRead :: .cmdSignin ::
    (if env.signinRcOk && env.whoami2Ok then
      [.signedInViaApp, .doneMsg]
    else
      .warnFallback ::
      (if !env.isatty then
        [.warnNonInteractive]
      else
        let addr := if pyStrip env.addressInput = "" then
          "https://my.1password.com" else pyStrip env.addressInput
        .promptAddress :: .cmdAccountAdd addr ::
        (if env.accountAddRcOk then
          (if env.whoami3Ok then [.signedInManual] else [.softAdded]) ++
            [.doneMsg]
        else
          [.warnSigninFailed, .doneMsg])))

/-- Events that read the task's standard input directly (an `input()`
call in the task itself). -/
def readsOperatorInput : OPSEvent → Bool
  | .confirmRead => true
  | .promptAddress => true
  | _ => false

/-- Events of the manual sign-in flow. -/
def manualSigninEvent : OPSEvent → Bool
  | .promptAddress => true
  | .cmdAccountAdd _ => true
  | _ => false

/-- A non-interactive environment in which the automatic checks do not
succeed: `op` is installed but no account is signed in, app-integration
sign-in fails, and stdin is not a TTY. -/
def nonTtyEnv : OPSEnv :=
  ⟨true, false, false, false, false, false, false, "", false, false⟩

/-- Claim C9, counterexample: with stdin not a TTY and the automatic
checks failing, the task still reads from standard input — the
unconditional press-Enter confirmation before the app-integration
attempt happens with no TTY check, so stdin is not read `only when an
interactive input stream is attached`. -/
theorem onepassword_signin_reads_stdin_when_non_tty :
    nonTtyEnv.isatty = false ∧
    (ensure_1password_signin nonTtyEnv).any readsOperatorInput = true ∧
    OPSEvent.confirmRead ∈ ensure_1password_signin nonTtyEnv := by
  refine ⟨rfl, by decide, by decide⟩

/-- Claim C9 as amended: the task issues one unconditional press-Enter
confirmation (a stdin read) before attempting app-integration sign-in
regardless of the TTY state; only the manual sign-in flow is gated —
when stdin is not a TTY, no sign-in-address prompt and no
`op account add` ever occurs, and if the fallback point is reached the
task terminates with the warning instructing manual completion as its
last output. -/
theorem onepassword_manual_prompts_gated (env : OPSEnv)
    (h : env.isatty = false) :
    (ensure_1password_signin env).all (fun e => !manualSigninEvent e) = true ∧
    OPSEvent.promptAddress ∉ ensure_1password_signin env ∧
    (OPSEvent.warnFallback ∈ ensure_1password_signin env →
      (ensure_1password_signin env).getLast? = some .warnNonInteractive) := by
  unfold ensure_1password_signin
  cases hop : env.opInstalled <;>
    cases hal : env.accountListRcOk && env.accountListNonempty &&
      env.whoami1Ok <;>
    cases hsi : env.signinRcOk && env.whoami2Ok <;>
      simp [h, manualSigninEvent]

/-- Witness for the amended C9 theorem at the concrete non-TTY
environment. -/
theorem onepassword_manual_prompts_gated_witness :
    nonTtyEnv.isatty = false ∧
    ((ensure_1password_signin nonTtyEnv).all
        (fun e => !manualSigninEvent e) = true ∧
      OPSEvent.promptAddress ∉ ensure_1password_signin nonTtyEnv ∧
      (OPSEvent.warnFallback ∈ ensure_1password_signin nonTtyEnv →
        (ensure_1password_signin nonTtyEnv).getLast? =
          some .warnNonInteractive)) :=
  ⟨rfl, onepassword_manual_prompts_gated nonTtyEnv rfl⟩

/-! ## Folder creation (src/tasks/folders.py) and claim C6

Paths are modelled as segment lists; the filesystem maps each path to
a directory, a file, or nothing.  `Path.expanduser` and path parsing
are deterministic, so the task is parameterized by a `resolve`
function from the declared path string to its segments. -/

inductive FsEntry
  | dir
  | file
  | absent
  deriving DecidableEq

abbrev Fs := List String → FsEntry

/-- A `mkdir(parents=True)` call on `p` fails when some prefix of `p`
is an existing regular file (`NotADirectoryError`/`FileExistsError`). -/
def mkdirBlocked (fs : Fs) (p : List String) : Bool :=
  p.inits.any (fun q => fs q == FsEntry.file)

/-- `folder_path.mkdir(parents=True, exist_ok=True)`: fails when
blocked by a file, otherwise creates the path and all its missing
ancestors as directories. -/
def mkdirParents (fs : Fs) (p : List String) : Option Fs :=
  if mkdirBlocked fs p then none
  else some (fun q =>
    if q ∈ p.inits ∧ fs q = FsEntry.absent then FsEntry.dir else fs q)

inductive FolderAction
  | alreadyExists (p : List String)
  | warnNotDir (p : List String)
  | created (p : List String)
  | warnFailed (p : List String)
  deriving DecidableEq

/-- One iteration of the `for folder_path_str in folders` loop of
`ensure_folders`: an existing directory logs success, an existing
non-directory warns, an absent path is created with
`mkdir(parents=True, exist_ok=True)`, a raised error warns. -/
def folderStep (resolve : String → List String) (fs : Fs) (f : String) :
    Fs × FolderAction :=
  let p := resolve f
  match fs p with
  | .dir => (fs, .alreadyExists p)
  | .file => (fs, .warnNotDir p)
  | .absent =>
    match mkdirParents fs p with
    | some fs' => (fs', .created p)
    | none => (fs, .warnFailed p)

/-- The whole loop of `ensure_folders` over the declared paths. -/
def ensure_folders (resolve : String → List String) (fs : Fs) :
    List String → Fs × List FolderAction
  | [] => (fs, [])
  | f :: rest =>
    let s := folderStep resolve fs f
    let r := ensure_folders resolve s.1 rest
    (r.1, s.2 :: r.2)

/-- A step never changes an entry that already exists. -/
theorem folderStep_preserve (resolve : String → List String) (fs : Fs)
    (f : String) (q : List String) (hq : fs q ≠ FsEntry.absent) :
    (folderStep resolve fs f).1 q = fs q := by
  cases hfsp : fs (resolve f) with
  | dir => simp [folderStep, hfsp]
  | file => simp [folderStep, hfsp]
  | absent =>
    by_cases hb : mkdirBlocked fs (resolve f) = true
    · simp [folderStep, hfsp, mkdirParents, hb]
    · simp only [Bool.not_eq_true] at hb
      simp [folderStep, hfsp, mkdirParents, hb, hq]

/-- A run never changes an entry that already exists. -/
theorem ensure_folders_preserve (resolve : String → List String)
    (l : List String) (fs : Fs) (q : List String)
    (hq : fs q ≠ FsEntry.absent) :
    (ensure_folders resolve fs l).1 q = fs q := by
  induction l generalizing fs with
  | nil => rfl
  | cons f rest ih =>
    have h1 := folderStep_preserve resolve fs f q hq
    have h2 := ih (folderStep resolve fs f).1 (by rw [h1]; exact hq)
    simp only [ensure_folders]
    rw [h2, h1]

/-- A path is `settled` when re-processing it can do nothing: it
already exists, or creating it is blocked by a file. -/
def settled (fs : Fs) (p : List String) : Prop :=
  fs p ≠ FsEntry.absent ∨ mkdirBlocked fs p = true

/-- Settledness survives any further processing: existing entries are
preserved, and a blocking file stays a file. -/
theorem settled_persist (resolve : String → List String) (l : List String)
    (fs : Fs) (p : List String) (h : settled fs p) :
    settled (ensure_folders resolve fs l).1 p := by
  cases h with
  | inl h =>
    exact Or.inl (by rw [ensure_folders_preserve resolve l fs p h]; exact h)
  | inr h =>
    right
    simp only [mkdirBlocked, List.any_eq_true] at h ⊢
    obtain ⟨q, hq, hfq⟩ := h
    have hfile : fs q = FsEntry.file := by simpa using hfq
    refine ⟨q, hq, ?_⟩
    rw [ensure_folders_preserve resolve l fs q (by simp [hfile]), hfile]
    simp

/-- After its own step, a path is settled. -/
theorem folderStep_settles (resolve : String → List String) (fs : Fs)
    (f : String) : settled (folderStep resolve fs f).1 (resolve f) := by
  cases hfsp : fs (resolve f) with
  | dir =>
    left
    rw [folderStep_preserve resolve fs f (resolve f) (by simp [hfsp]), hfsp]
    simp
  | file =>
    left
    rw [folderStep_preserve resolve fs f (resolve f) (by simp [hfsp]), hfsp]
    simp
  | absent =>
    by_cases hb : mkdirBlocked fs (resolve f) = true
    · right
      have hsame : folderStep resolve fs f = (fs, .warnFailed (resolve f)) := by
        simp [folderStep, hfsp, mkdirParents, hb]
      rw [hsame]
      exact hb
    · left
      simp only [Bool.not_eq_true] at hb
      simp [folderStep, hfsp, mkdirParents, hb, List.prefix_rfl]

/-- After a run, every declared path is settled. -/
theorem ensure_folders_settles (resolve : String → List String)
    (l : List String) (fs : Fs) (f : String) (hf : f ∈ l) :
    settled (ensure_folders resolve fs l).1 (resolve f) := by
  induction l generalizing fs with
  | nil => cases hf
  | cons g rest ih =>
    simp only [ensure_folders]
    rcases List.mem_cons.mp hf with hfg | hmem
    · subst hfg
      exact settled_persist resolve rest _ _ (folderStep_settles resolve fs f)
    · exact ih _ hmem

/-- The action the loop reports for a path it cannot change. -/
def secondAction (fs : Fs) (p : List String) : FolderAction :=
  match fs p with
  | .dir => .alreadyExists p
  | .file => .warnNotDir p
  | .absent => .warnFailed p

/-- A step on a settled path performs no filesystem mutation. -/
theorem folderStep_noop (resolve : String → List String) (fs : Fs)
    (f : String) (h : settled fs (resolve f)) :
    folderStep resolve fs f = (fs, secondAction fs (resolve f)) := by
  cases hfsp : fs (resolve f) with
  | dir => simp [folderStep, secondAction, hfsp]
  | file => simp [folderStep, secondAction, hfsp]
  | absent =>
    have hb : mkdirBlocked fs (resolve f) = true := by
      rcases h with h | h
      · exact absurd hfsp h
      · exact h
    simp [folderStep, secondAction, mkdirParents, hfsp, hb]

/-- A run over only settled paths mutates nothing and reports the
existence status of every path. -/
theorem ensure_folders_noop (resolve : String → List String)
    (l : List String) (fs : Fs)
    (h : ∀ f ∈ l, settled fs (resolve f)) :
    ensure_folders resolve fs l =
      (fs, l.map (fun f => secondAction fs (resolve f))) := by
  induction l with
  | nil => rfl
  | cons g rest ih =>
    have hg := folderStep_noop resolve fs g (h g (List.mem_cons_self g rest))
    simp only [ensure_folders, hg]
    rw [ih (fun f hf => h f (List.mem_cons_of_mem g hf))]
    rfl

/-- Actions that detect an existing path (the branches that perform no
creation because `folder_path.exists()` was true). -/
def detectedExisting : FolderAction → Bool
  | .alreadyExists _ => true
  | .warnNotDir _ => true
  | _ => false

/-- Claim C6: running the folder-creation task twice with the same
configuration leaves the filesystem in the same state after the second
run as after the first; the second run's per-path actions are pure
status reports with no mutation; and every path that exists after the
first run (created or already present) is detected as existing by the
second run. -/
theorem ensure_folders_idempotent (resolve : String → List String)
    (fs0 : Fs) (l : List String) :
    (ensure_folders resolve (ensure_folders resolve fs0 l).1 l).1 =
      (ensure_folders resolve fs0 l).1 ∧
    (ensure_folders resolve (ensure_folders resolve fs0 l).1 l).2 =
      l.map (fun f => secondAction (ensure_folders resolve fs0 l).1 (resolve f)) ∧
    (l.all (fun f =>
      ((ensure_folders resolve fs0 l).1 (resolve f) == FsEntry.absent) ||
        detectedExisting
          (secondAction (ensure_folders resolve fs0 l).1 (resolve f)))) = true := by
  have hset : ∀ f ∈ l, settled (ensure_folders resolve fs0 l).1 (resolve f) :=
    fun f hf => ensure_folders_settles resolve l fs0 f hf
  have hno := ensure_folders_noop resolve l _ hset
  refine ⟨by rw [hno], by rw [hno], ?_⟩
  rw [List.all_eq_true]
  intro f hf
  cases hE : (ensure_folders resolve fs0 l).1 (resolve f) <;>
    simp [secondAction, detectedExisting, hE]
